import Mathlib

/-!
# Verification of the wasabi MIDI player core

Shallow embedding of the wasabi repository's playback engine surface:
the audio dispatch layer (`src/audio_playback/mod.rs`), the GUI window
event handlers (`src/gui/window.rs`), the keyboard renderer
(`src/gui/window/keyboard.rs`) and the settings range codec
(`src/settings.rs`).  Rust `u8`/`u32`/`u64`/`usize` are embedded as `Nat`
(none of the embedded code performs overflowing arithmetic on them);
`f64`/`f32` values are carried opaquely as `Float` where the code only
stores them; `Duration` is embedded as a `Nat` count of nanoseconds
(Rust's `Duration` is unsigned, and subtraction panics on underflow,
which we model with `Option`).
-/

namespace Wasabi

/-- egui `Color32` restricted to the RGB constructor used by the code
(`Color32::from_rgb`). Components are `u8`, embedded as `Nat`. -/
structure Color32 where
  r : Nat
  g : Nat
  b : Nat
deriving DecidableEq, Repr

def Color32.WHITE : Color32 := ⟨255, 255, 255⟩

def Color32.BLACK : Color32 := ⟨0, 0, 0⟩

/-- Modelled from the spec: `MIDIColor` lives in `crate::midi`, which is not
among the provided sources; the keyboard renderer only calls its `red()`,
`green()` and `blue()` accessors (u8 components), so it is embedded as a
plain RGB triple. -/
structure MIDIColor where
  red : Nat
  green : Nat
  blue : Nat
deriving DecidableEq, Repr

/-- One key of the `KeyboardView` (`src/gui/window/keyboard_layout.rs` is not
provided; the renderer reads only `black`, `left` and `right`). -/
structure Key where
  black : Bool
  left : Float
  right : Float

/-- `map_color` from `GuiKeyboard::draw`:
`Color32::from_rgb(col.red(), col.green(), col.blue())`. -/
def map_color (col : MIDIColor) : Color32 :=
  ⟨col.red, col.green, col.blue⟩

/-- One pass of the two `for (i, key) in key_view.iter_visible_keys()` loops
of `GuiKeyboard::draw` (`pass = false` for the white-key loop, `pass = true`
for the black-key loop).  Each iteration evaluates
`colors[i].map(map_color).unwrap_or(DEFAULT)` where `DEFAULT` is
`Color32::WHITE` in the white loop and `Color32::BLACK` in the black loop;
the Rust index expression `colors[i]` panics when `i` is out of bounds,
which we model with `Option.none`.  The result lists the `(i, fill color)`
rectangles pushed onto the mesh, in order. -/
def drawPass (colors : List (Option MIDIColor)) (pass : Bool) :
    List (Nat × Key) → Option (List (Nat × Color32))
  | [] => some []
  | (i, key) :: rest =>
    if key.black = pass then
      match colors.get? i with
      | none => none
      | some oc =>
        match drawPass colors pass rest with
        | none => none
        | some m =>
          some ((i, (oc.map map_color).getD
            (if pass then Color32.BLACK else Color32.WHITE)) :: m)
    else drawPass colors pass rest

/-- `GuiKeyboard::draw`: the white-key loop runs first, then the black-key
loop, and both append colored rectangles to the same mesh.  `none` models a
panic from an out-of-bounds `colors[i]`. -/
def GuiKeyboard.draw (key_view : List (Nat × Key))
    (colors : List (Option MIDIColor)) : Option (List (Nat × Color32)) :=
  match drawPass colors false key_view, drawPass colors true key_view with
  | some w, some b => some (w ++ b)
  | _, _ => none

/-- The fill color the claim predicts for visible key `i`: the silent
default (white for a white key, black for a black key) when `colors[i]` is
`None`, and the RGB components of `c` when it is `Some c`. -/
def expectedFill (colors : List (Option MIDIColor)) (i : Nat) (key : Key) :
    Color32 :=
  match colors.getD i none with
  | none => if key.black then Color32.BLACK else Color32.WHITE
  | some c => map_color c

/-- `AudioPlayerType` from `src/audio_playback/mod.rs`:
`XSynth(String, f64)` or `Kdmapi`. -/
inductive AudioPlayerType where
  | xsynth (sfz : String) (buf : Float)
  | kdmapi

/-- Modelled from the spec: the `xsynth` submodule of `audio_playback` is
not among the provided sources.  Per the spec the XSynth backend accepts
raw events, exposes a live voice count, can be reset, and supports runtime
reconfiguration of its layer count and soundfont. -/
structure XSynthPlayer where
  sfz : String
  buf : Float
  voice_count : Nat
  layers : Option Nat
  events : List Nat
  resets : Nat

def XSynthPlayer.new (sfz : String) (buf : Float) : XSynthPlayer :=
  ⟨sfz, buf, 0, none, [], 0⟩

def XSynthPlayer.get_voice_count (p : XSynthPlayer) : Nat :=
  p.voice_count

def XSynthPlayer.push_event (p : XSynthPlayer) (data : Nat) : XSynthPlayer :=
  { p with events := p.events ++ [data] }

def XSynthPlayer.reset (p : XSynthPlayer) : XSynthPlayer :=
  { p with voice_count := 0, resets := p.resets + 1 }

def XSynthPlayer.set_layer_count (p : XSynthPlayer) (layers : Option Nat) :
    XSynthPlayer :=
  { p with layers := layers }

def XSynthPlayer.set_soundfont (p : XSynthPlayer) (path : String) :
    XSynthPlayer :=
  { p with sfz := path }

/-- Modelled from the spec: the `kdmapi` submodule of `audio_playback` is
not among the provided sources.  Per the spec KDMAPI is a pass-through
backend: it accepts raw events and reset, exposes no polyphony telemetry
and no runtime reconfiguration. -/
structure KDMAPIPlayer where
  events : List Nat
  resets : Nat
deriving DecidableEq, Repr

def KDMAPIPlayer.new : KDMAPIPlayer := ⟨[], 0⟩

def KDMAPIPlayer.push_event (p : KDMAPIPlayer) (data : Nat) : KDMAPIPlayer :=
  { p with events := p.events ++ [data] }

def KDMAPIPlayer.reset (p : KDMAPIPlayer) : KDMAPIPlayer :=
  { p with resets := p.resets + 1 }

/-- `SimpleTemporaryPlayer` from `src/audio_playback/mod.rs`. -/
structure SimpleTemporaryPlayer where
  player_type : AudioPlayerType
  xsynth : Option XSynthPlayer
  kdmapi : Option KDMAPIPlayer

/-- `SimpleTemporaryPlayer::new`. -/
def SimpleTemporaryPlayer.new (player_type : AudioPlayerType) :
    SimpleTemporaryPlayer :=
  match player_type with
  | .xsynth sfz buf =>
    ⟨.xsynth sfz buf, some (XSynthPlayer.new sfz buf), none⟩
  | .kdmapi =>
    ⟨.kdmapi, none, some KDMAPIPlayer.new⟩

/-- `SimpleTemporaryPlayer::get_voice_count`. -/
def SimpleTemporaryPlayer.get_voice_count (p : SimpleTemporaryPlayer) : Nat :=
  match p.player_type with
  | .xsynth _ _ =>
    match p.xsynth with
    | some xsynth => xsynth.get_voice_count
    | none => 0
  | .kdmapi => 0

/-- `SimpleTemporaryPlayer::push_event`. -/
def SimpleTemporaryPlayer.push_event (p : SimpleTemporaryPlayer)
    (data : Nat) : SimpleTemporaryPlayer :=
  match p.player_type with
  | .xsynth _ _ =>
    match p.xsynth with
    | some xsynth => { p with xsynth := some (xsynth.push_event data) }
    | none => p
  | .kdmapi =>
    match p.kdmapi with
    | some kdmapi => { p with kdmapi := some (kdmapi.push_event data) }
    | none => p

/-- `SimpleTemporaryPlayer::push_events` (a `for` loop over the iterator,
calling `push_event` on each element in order). -/
def SimpleTemporaryPlayer.push_events (p : SimpleTemporaryPlayer)
    (data : List Nat) : SimpleTemporaryPlayer :=
  data.foldl (fun acc e => acc.push_event e) p

/-- `SimpleTemporaryPlayer::reset`. -/
def SimpleTemporaryPlayer.reset (p : SimpleTemporaryPlayer) :
    SimpleTemporaryPlayer :=
  match p.player_type with
  | .xsynth _ _ =>
    match p.xsynth with
    | some xsynth => { p with xsynth := some xsynth.reset }
    | none => p
  | .kdmapi =>
    match p.kdmapi with
    | some kdmapi => { p with kdmapi := some kdmapi.reset }
    | none => p

/-- `SimpleTemporaryPlayer::set_layer_count` (guarded by
`if let AudioPlayerType::XSynth(..) = self.player_type`). -/
def SimpleTemporaryPlayer.set_layer_count (p : SimpleTemporaryPlayer)
    (layers : Option Nat) : SimpleTemporaryPlayer :=
  match p.player_type with
  | .xsynth _ _ =>
    match p.xsynth with
    | some xsynth => { p with xsynth := some (xsynth.set_layer_count layers) }
    | none => p
  | .kdmapi => p

/-- `SimpleTemporaryPlayer::set_soundfont` (guarded by
`if let AudioPlayerType::XSynth(..) = self.player_type`). -/
def SimpleTemporaryPlayer.set_soundfont (p : SimpleTemporaryPlayer)
    (path : String) : SimpleTemporaryPlayer :=
  match p.player_type with
  | .xsynth _ _ =>
    match p.xsynth with
    | some xsynth => { p with xsynth := some (xsynth.set_soundfont path) }
    | none => p
  | .kdmapi => p

/-- One nanosecond count per second: `Duration` is embedded as `Nat`
nanoseconds. -/
def oneSecNanos : Nat := 1000000000

/-- Rust `Duration - Duration`: `checked_sub` panics on underflow
("overflow when subtracting durations"), modelled as `none`. -/
def durationSub (a b : Nat) : Option Nat :=
  if b ≤ a then some (a - b) else none

/-- Modelled from the spec: the playback timer lives in `crate::midi`,
which is not among the provided sources.  Per §4.1 (Playback Clock) it
holds a position and a running flag; `play` resumes (idempotent), `pause`
freezes (idempotent), `toggle_pause` flips the state, `seek` sets the
position regardless of run state, `get_time` returns the current logical
position. -/
structure MidiTimer where
  position : Nat
  running : Bool
deriving DecidableEq, Repr

def MidiTimer.new : MidiTimer := ⟨0, false⟩

def MidiTimer.play (t : MidiTimer) : MidiTimer := { t with running := true }

def MidiTimer.pause (t : MidiTimer) : MidiTimer := { t with running := false }

def MidiTimer.toggle_pause (t : MidiTimer) : MidiTimer :=
  { t with running := !t.running }

def MidiTimer.seek (t : MidiTimer) (target : Nat) : MidiTimer :=
  { t with position := target }

def MidiTimer.get_time (t : MidiTimer) : Nat := t.position

/-- `MIDIFileUnion` as used by `GuiWasabiWindow::layout`
(`crate::midi::MIDIFileUnion`, constructed via
`InRamMIDIFile::load_from_file(path, player, random_colors)`): it owns the
playback timer and the audio player passed to the loader. -/
structure MIDIFileUnion where
  path : String
  timer : MidiTimer
  player : SimpleTemporaryPlayer
  random_colors : Bool

/-- `InRamMIDIFile::load_from_file` wrapped in `MIDIFileUnion::InRam`
(modelled from the spec where the loader itself is not provided: a freshly
loaded file starts with a fresh timer, `open(file) → Loaded-Paused`). -/
def MIDIFileUnion.load (path : String) (player : SimpleTemporaryPlayer)
    (random_colors : Bool) : MIDIFileUnion :=
  ⟨path, MidiTimer.new, player, random_colors⟩

/-- The `midi_file` slot of `GuiWasabiWindow`, together with a ghost
counter of how many `SimpleTemporaryPlayer::new` calls have happened, used
to observe backend construction across opens. -/
structure GuiWasabiWindow where
  midi_file : Option MIDIFileUnion
  playersConstructed : Nat

def GuiWasabiWindow.new : GuiWasabiWindow := ⟨none, 0⟩

/-- The "Open MIDI" click handler (`src/gui/window.rs` lines 183-199): a
picked file is loaded with a **newly constructed**
`SimpleTemporaryPlayer`, then `midi_file.timer_mut().play()` is called,
then the file is stored in `self.midi_file`. -/
def GuiWasabiWindow.openMidi (w : GuiWasabiWindow) (midi_path : String)
    (ptype : AudioPlayerType) (random_colors : Bool) : GuiWasabiWindow :=
  let player := SimpleTemporaryPlayer.new ptype
  let midi_file := MIDIFileUnion.load midi_path player random_colors
  let midi_file := { midi_file with timer := midi_file.timer.play }
  { midi_file := some midi_file,
    playersConstructed := w.playersConstructed + 1 }

/-- The "Close MIDI" click handler: guarded by
`self.midi_file.is_some() && ui.button("Close MIDI").clicked()`, it sets
`self.midi_file = None`; with no file loaded the guard short-circuits and
nothing happens. -/
def GuiWasabiWindow.closeClicked (w : GuiWasabiWindow) : GuiWasabiWindow :=
  match w.midi_file with
  | some _ => { w with midi_file := none }
  | none => w

/-- The "Play" click handler:
`self.midi_file.as_mut().unwrap().timer_mut().play()` — the `unwrap`
panics (modelled as `none`) when no file is loaded. -/
def GuiWasabiWindow.playClicked (w : GuiWasabiWindow) :
    Option GuiWasabiWindow :=
  match w.midi_file with
  | some m => some { w with midi_file := some { m with timer := m.timer.play } }
  | none => none

/-- The "Pause" click handler:
`self.midi_file.as_mut().unwrap().timer_mut().pause()` — the `unwrap`
panics (modelled as `none`) when no file is loaded. -/
def GuiWasabiWindow.pauseClicked (w : GuiWasabiWindow) :
    Option GuiWasabiWindow :=
  match w.midi_file with
  | some m => some { w with midi_file := some { m with timer := m.timer.pause } }
  | none => none

/-- The `ArrowLeft` key handler (`src/gui/window.rs` lines 306-311):
`seek(time - one_sec)` where `time` is the `Duration` read from
`timer().get_time()` — the `Duration` subtraction panics on underflow,
modelled as `none`. -/
def MIDIFileUnion.arrowLeft (m : MIDIFileUnion) : Option MIDIFileUnion :=
  (durationSub m.timer.get_time oneSecNanos).map
    (fun target => { m with timer := m.timer.seek target })

/-- A time-tagged MIDI event as yielded by the Timeline (absolute time in
nanoseconds plus the raw message bytes packed in a `u32`). -/
structure TimedEvent where
  time : Nat
  message : Nat
deriving DecidableEq, Repr

/-- Modelled from the spec: the Timeline variants live in `crate::midi`,
which is not among the provided sources.  §4.2 (Buffered variant): the
full event sequence is memory-resident and a `(start, end]` query yields
exactly the events whose absolute time lies in that interval, in file
order. -/
def bufferedQuery (evs : List TimedEvent) (s e : Nat) : List TimedEvent :=
  evs.filter (fun ev => s < ev.time && ev.time ≤ e)

/-- Modelled from the spec: §4.3 (Streamed variant) — the same contract,
but the sequence is decoded incrementally: the cursor skips events at or
before `s`, emits events in `(s, e]`, and stops decoding at the first
event past `e` (decode only as far as needed). -/
def streamedQuery : List TimedEvent → Nat → Nat → List TimedEvent
  | [], _, _ => []
  | ev :: rest, s, e =>
    if ev.time ≤ s then streamedQuery rest s e
    else if ev.time ≤ e then ev :: streamedQuery rest s e
    else []

/-- File order is defined to be non-decreasing absolute time (§4.2). -/
def timeSorted (evs : List TimedEvent) : Prop :=
  List.Pairwise (fun a b => a.time ≤ b.time) evs

/-- `RangeInclusive<u8>` (`start..=end`), embedded with `Nat` endpoints
(`stop` stands for Rust's `end`, a Lean keyword). -/
structure RangeU8 where
  start : Nat
  stop : Nat
deriving DecidableEq, Repr

namespace range_serde

/-- The field identifiers of the `range` struct
(`#[serde(field_identifier, rename_all = "lowercase")] enum Field`). -/
inductive Field where
  | hi
  | lo
deriving DecidableEq, Repr

/-- Deserialization of a `Field` from its lowercase name. -/
def Field.parse (s : String) : Option Field :=
  if s = "hi" then some .hi
  else if s = "lo" then some .lo
  else none

/-- `range_serde::serialize`: a 2-field struct named `range` whose field
`"hi"` carries `range.start()` and whose field `"lo"` carries
`range.end()`, embedded as the ordered field list the serializer emits. -/
def serialize (range : RangeU8) : List (String × Nat) :=
  [("hi", range.start), ("lo", range.stop)]

/-- The loop body of `RangeVisitor::visit_map`: fold over the map entries,
rejecting unknown field names (the `field_identifier` enum) and duplicate
fields, accumulating the `hi` and `lo` values. -/
def visitEntries : List (String × Nat) → Option Nat → Option Nat →
    Option (Option Nat × Option Nat)
  | [], hi, lo => some (hi, lo)
  | (k, v) :: rest, hi, lo =>
    match Field.parse k with
    | none => none
    | some .hi =>
      match hi with
      | some _ => none
      | none => visitEntries rest (some v) lo
    | some .lo =>
      match lo with
      | some _ => none
      | none => visitEntries rest hi (some v)

/-- `range_serde::deserialize` via `RangeVisitor::visit_map`: after the
entry loop, `hi` and `lo` must both be present and the result is
`hi..=lo`. -/
def deserialize (entries : List (String × Nat)) : Option RangeU8 :=
  match visitEntries entries none none with
  | none => none
  | some (hi, lo) =>
    match hi, lo with
    | some hi, some lo => some ⟨hi, lo⟩
    | _, _ => none

end range_serde

/-- The public operations of `SimpleTemporaryPlayer`, reified so that
invariants can be stated over arbitrary call sequences
(`get_voice_count` takes `&self` and leaves the player unchanged). -/
inductive PlayerOp where
  | push_event (data : Nat)
  | push_events (data : List Nat)
  | reset
  | get_voice_count
  | set_layer_count (layers : Option Nat)
  | set_soundfont (path : String)

/-- The state transformation performed by one `SimpleTemporaryPlayer`
operation. -/
def PlayerOp.apply (op : PlayerOp) (p : SimpleTemporaryPlayer) :
    SimpleTemporaryPlayer :=
  match op with
  | .push_event data => p.push_event data
  | .push_events data => p.push_events data
  | .reset => p.reset
  | .get_voice_count => p
  | .set_layer_count layers => p.set_layer_count layers
  | .set_soundfont path => p.set_soundfont path

/-- Run a sequence of `SimpleTemporaryPlayer` operations in order. -/
def runOps (ops : List PlayerOp) (p : SimpleTemporaryPlayer) :
    SimpleTemporaryPlayer :=
  ops.foldl (fun acc op => op.apply acc) p

/-- The backend-population invariant of `SimpleTemporaryPlayer`: exactly
the backend field matching `player_type` is populated. -/
def SimpleTemporaryPlayer.wf (p : SimpleTemporaryPlayer) : Prop :=
  match p.player_type with
  | .xsynth _ _ => p.xsynth.isSome = true ∧ p.kdmapi.isSome = false
  | .kdmapi => p.xsynth.isSome = false ∧ p.kdmapi.isSome = true

/-- Whether the `player_type` tag is the KDMAPI variant (used to state
tag preservation without comparing the `f64` payload of `XSynth`). -/
def AudioPlayerType.isKdmapi : AudioPlayerType → Bool
  | .xsynth _ _ => false
  | .kdmapi => true

/-- The number of `reset()` calls the active backend of a player has
received, whichever variant it is (`none` if the matching backend field
is unpopulated). -/
def SimpleTemporaryPlayer.backendResets (p : SimpleTemporaryPlayer) :
    Option Nat :=
  match p.player_type with
  | .xsynth _ _ => p.xsynth.map (fun x => x.resets)
  | .kdmapi => p.kdmapi.map (fun k => k.resets)

/-- A sample loaded MIDI file used by concrete witnesses. -/
def sampleFile : MIDIFileUnion :=
  MIDIFileUnion.load "song.mid" (SimpleTemporaryPlayer.new .kdmapi) false

/-- A sample window with `sampleFile` loaded, used by concrete
witnesses. -/
def wLoaded : GuiWasabiWindow := ⟨some sampleFile, 1⟩

/-- A sample time-sorted event list used by concrete witnesses. -/
def demoEvents : List TimedEvent :=
  [⟨500000000, 10⟩, ⟨1500000000, 20⟩, ⟨2500000000, 30⟩, ⟨3500000000, 40⟩]

/-- A sample keyboard view (one white key, one black key) used by concrete
witnesses. -/
def demoView : List (Nat × Key) :=
  [(0, ⟨false, 0.0, 0.1⟩), (1, ⟨true, 0.07, 0.12⟩)]

/-- Sample key colors (key 0 silent, key 1 sounding) used by concrete
witnesses. -/
def demoColors : List (Option MIDIColor) :=
  [none, some ⟨17, 34, 51⟩]

/-- C1 counterexample: opening a file from a fresh window does **not**
leave the engine Loaded-Paused — the Open MIDI handler calls `play()` on
the fresh timer before storing the file, so its timer is already
running. -/
theorem C1_open_not_paused :
    ¬ ((GuiWasabiWindow.new.openMidi "a.mid" .kdmapi false).midi_file.map
        (fun m => m.timer.running) = some false) := by
  intro h
  simp [GuiWasabiWindow.openMidi, GuiWasabiWindow.new, MIDIFileUnion.load,
    MidiTimer.new, MidiTimer.play] at h

/-- C1 (amended): after `open(file)` the engine is in Loaded-Playing: for
every window, path, backend choice and color flag, the file stored by the
Open MIDI handler has a running timer, so playback advances without a
subsequent `play()` call. -/
theorem C1_open_is_playing (w : GuiWasabiWindow) (path : String)
    (ptype : AudioPlayerType) (rc : Bool) :
    ((w.openMidi path ptype rc).midi_file.map (fun m => m.timer.running))
      = some true := rfl

/-- C2: with a loaded file at position 0.5 s, the ArrowLeft handler
computes `time - one_sec` on `Duration`, which underflows and panics
(modelled as `none`) — the seek neither succeeds nor clamps to zero. -/
theorem C2_arrowLeft_panics :
    ({ sampleFile with timer := ⟨500000000, true⟩ } : MIDIFileUnion).arrowLeft
      = none := by
  simp [MIDIFileUnion.arrowLeft, durationSub, MidiTimer.get_time, oneSecNanos]

/-- C3 counterexample: opening two files in one session constructs two
`SimpleTemporaryPlayer` backends — the backend is not created exactly once
per session, and opening a new file does construct a new backend. -/
theorem C3_two_opens_two_backends :
    ((GuiWasabiWindow.new.openMidi "a.mid" .kdmapi false).openMidi "b.mid"
        .kdmapi false).playersConstructed = 2 ∧
    ¬ ((GuiWasabiWindow.new.openMidi "a.mid" .kdmapi false).openMidi "b.mid"
        .kdmapi false).playersConstructed = 1 := by
  constructor
  · rfl
  · decide

/-- C3 (amended): every Open MIDI action, whatever the configured backend
(XSynth or KDMAPI), constructs exactly one new backend instance and
stores it with the new file, replacing whatever was loaded before; the
backend does not persist across file opens and no `reset()` is sent
between files (the fresh backend has received zero resets). -/
theorem C3_open_constructs_backend (w : GuiWasabiWindow) (path : String)
    (ptype : AudioPlayerType) (rc : Bool) :
    (w.openMidi path ptype rc).playersConstructed
        = w.playersConstructed + 1 ∧
    ((w.openMidi path ptype rc).midi_file.map
        (fun m => m.player.backendResets))
      = some (some 0) := by
  refine ⟨rfl, ?_⟩
  cases ptype <;> rfl

/-- C4: in every frame, if a MIDI file is loaded then the Play (Pause)
button handler invokes `play()` (`pause()`) on its timer and the guarded
Close handler clears the file; if no file is loaded, Play and Pause
unconditionally unwrap the absent file and panic (modelled as `none`) —
the click is not a no-op — while the Close handler, guarded by
`midi_file.is_some()`, leaves the window unchanged. -/
theorem C4_button_handlers (w : GuiWasabiWindow) :
    (∀ m, w.midi_file = some m →
      w.playClicked
          = some { w with midi_file := some { m with timer := m.timer.play } } ∧
      w.pauseClicked
          = some { w with midi_file := some { m with timer := m.timer.pause } } ∧
      (w.closeClicked).midi_file = none) ∧
    (w.midi_file = none →
      w.playClicked = none ∧ w.pauseClicked = none ∧ w.closeClicked = w) := by
  constructor
  · intro m hm
    simp [GuiWasabiWindow.playClicked, GuiWasabiWindow.pauseClicked,
      GuiWasabiWindow.closeClicked, hm]
  · intro hn
    simp [GuiWasabiWindow.playClicked, GuiWasabiWindow.pauseClicked,
      GuiWasabiWindow.closeClicked, hn]

/-- C4 witness: the handlers evaluated on a concrete loaded window and on
a concrete empty window. -/
theorem C4_button_handlers_witness :
    (wLoaded.playClicked
        = some { wLoaded with
            midi_file := some { sampleFile with timer := sampleFile.timer.play } } ∧
     wLoaded.pauseClicked
        = some { wLoaded with
            midi_file := some { sampleFile with timer := sampleFile.timer.pause } } ∧
     (wLoaded.closeClicked).midi_file = none) ∧
    (GuiWasabiWindow.new.playClicked = none ∧
     GuiWasabiWindow.new.pauseClicked = none ∧
     GuiWasabiWindow.new.closeClicked = GuiWasabiWindow.new) :=
  ⟨(C4_button_handlers wLoaded).1 sampleFile rfl,
   (C4_button_handlers GuiWasabiWindow.new).2 rfl⟩

/-- C5: every `SimpleTemporaryPlayer` whose backend is KDMAPI (no
polyphony telemetry) reports a voice count of 0; `get_voice_count` is a
total function and never fails for any backend. -/
theorem C5_kdmapi_voice_count_zero (p : SimpleTemporaryPlayer)
    (h : p.player_type = AudioPlayerType.kdmapi) :
    p.get_voice_count = 0 := by
  simp [SimpleTemporaryPlayer.get_voice_count, h]

/-- C5 witness: a freshly constructed KDMAPI player reports 0 voices. -/
theorem C5_kdmapi_voice_count_zero_witness :
    (SimpleTemporaryPlayer.new .kdmapi).player_type
        = AudioPlayerType.kdmapi ∧
    (SimpleTemporaryPlayer.new .kdmapi).get_voice_count = 0 :=
  ⟨rfl, C5_kdmapi_voice_count_zero (SimpleTemporaryPlayer.new .kdmapi) rfl⟩

/-- C6: on a KDMAPI player, `set_layer_count` and `set_soundfont` return
without error and leave the entire player state unchanged, for every
argument value. -/
theorem C6_kdmapi_reconfig_noop (p : SimpleTemporaryPlayer)
    (h : p.player_type = AudioPlayerType.kdmapi) (layers : Option Nat)
    (path : String) :
    p.set_layer_count layers = p ∧ p.set_soundfont path = p := by
  constructor
  · simp [SimpleTemporaryPlayer.set_layer_count, h]
  · simp [SimpleTemporaryPlayer.set_soundfont, h]

/-- C6 witness: reconfiguring a freshly constructed KDMAPI player with a
concrete layer count and soundfont path changes nothing. -/
theorem C6_kdmapi_reconfig_noop_witness :
    (SimpleTemporaryPlayer.new .kdmapi).set_layer_count (some 4)
        = SimpleTemporaryPlayer.new .kdmapi ∧
    (SimpleTemporaryPlayer.new .kdmapi).set_soundfont "piano.sfz"
        = SimpleTemporaryPlayer.new .kdmapi :=
  C6_kdmapi_reconfig_noop (SimpleTemporaryPlayer.new .kdmapi) rfl (some 4)
    "piano.sfz"

/-- Helper: one `push_event` call preserves the backend tag and which
backend fields are populated. -/
theorem push_event_shape (p : SimpleTemporaryPlayer) (d : Nat) :
    (p.push_event d).player_type = p.player_type ∧
    (p.push_event d).xsynth.isSome = p.xsynth.isSome ∧
    (p.push_event d).kdmapi.isSome = p.kdmapi.isSome := by
  obtain ⟨pt, xs, kd⟩ := p
  cases pt <;> cases xs <;> cases kd <;>
    simp [SimpleTemporaryPlayer.push_event]

/-- Helper: `push_events` (a fold of `push_event`) preserves the backend
tag and which backend fields are populated. -/
theorem push_events_shape (ds : List Nat) (p : SimpleTemporaryPlayer) :
    (p.push_events ds).player_type = p.player_type ∧
    (p.push_events ds).xsynth.isSome = p.xsynth.isSome ∧
    (p.push_events ds).kdmapi.isSome = p.kdmapi.isSome := by
  induction ds generalizing p with
  | nil => exact ⟨rfl, rfl, rfl⟩
  | cons d ds ih =>
    have step : p.push_events (d :: ds) = (p.push_event d).push_events ds :=
      rfl
    have h1 := push_event_shape p d
    have h2 := ih (p.push_event d)
    rw [step]
    exact ⟨h2.1.trans h1.1, h2.2.1.trans h1.2.1, h2.2.2.trans h1.2.2⟩

/-- Helper: `reset` preserves the backend tag and which backend fields are
populated. -/
theorem reset_shape (p : SimpleTemporaryPlayer) :
    p.reset.player_type = p.player_type ∧
    p.reset.xsynth.isSome = p.xsynth.isSome ∧
    p.reset.kdmapi.isSome = p.kdmapi.isSome := by
  obtain ⟨pt, xs, kd⟩ := p
  cases pt <;> cases xs <;> cases kd <;>
    simp [SimpleTemporaryPlayer.reset]

/-- Helper: `set_layer_count` preserves the backend tag and which backend
fields are populated. -/
theorem set_layer_count_shape (p : SimpleTemporaryPlayer)
    (layers : Option Nat) :
    (p.set_layer_count layers).player_type = p.player_type ∧
    (p.set_layer_count layers).xsynth.isSome = p.xsynth.isSome ∧
    (p.set_layer_count layers).kdmapi.isSome = p.kdmapi.isSome := by
  obtain ⟨pt, xs, kd⟩ := p
  cases pt <;> cases xs <;> cases kd <;>
    simp [SimpleTemporaryPlayer.set_layer_count]

/-- Helper: `set_soundfont` preserves the backend tag and which backend
fields are populated. -/
theorem set_soundfont_shape (p : SimpleTemporaryPlayer) (path : String) :
    (p.set_soundfont path).player_type = p.player_type ∧
    (p.set_soundfont path).xsynth.isSome = p.xsynth.isSome ∧
    (p.set_soundfont path).kdmapi.isSome = p.kdmapi.isSome := by
  obtain ⟨pt, xs, kd⟩ := p
  cases pt <;> cases xs <;> cases kd <;>
    simp [SimpleTemporaryPlayer.set_soundfont]

/-- Helper: every reified operation preserves the backend tag and which
backend fields are populated. -/
theorem op_apply_shape (op : PlayerOp) (p : SimpleTemporaryPlayer) :
    (op.apply p).player_type = p.player_type ∧
    (op.apply p).xsynth.isSome = p.xsynth.isSome ∧
    (op.apply p).kdmapi.isSome = p.kdmapi.isSome := by
  cases op with
  | push_event d => exact push_event_shape p d
  | push_events ds => exact push_events_shape ds p
  | reset => exact reset_shape p
  | get_voice_count => exact ⟨rfl, rfl, rfl⟩
  | set_layer_count layers => exact set_layer_count_shape p layers
  | set_soundfont path => exact set_soundfont_shape p path

/-- Helper: running any operation sequence preserves the backend tag and
which backend fields are populated. -/
theorem runOps_shape (ops : List PlayerOp) (p : SimpleTemporaryPlayer) :
    (runOps ops p).player_type = p.player_type ∧
    (runOps ops p).xsynth.isSome = p.xsynth.isSome ∧
    (runOps ops p).kdmapi.isSome = p.kdmapi.isSome := by
  induction ops generalizing p with
  | nil => exact ⟨rfl, rfl, rfl⟩
  | cons op ops ih =>
    have step : runOps (op :: ops) p = runOps ops (op.apply p) := rfl
    have h1 := op_apply_shape op p
    have h2 := ih (op.apply p)
    rw [step]
    exact ⟨h2.1.trans h1.1, h2.2.1.trans h1.2.1, h2.2.2.trans h1.2.2⟩

/-- Helper: the population invariant transports along equality of the
backend tag and of the fields' someness. -/
theorem wf_of_shape (p q : SimpleTemporaryPlayer)
    (h1 : q.player_type = p.player_type)
    (h2 : q.xsynth.isSome = p.xsynth.isSome)
    (h3 : q.kdmapi.isSome = p.kdmapi.isSome)
    (hw : p.wf) : q.wf := by
  unfold SimpleTemporaryPlayer.wf at hw ⊢
  rw [h1]
  cases hp : p.player_type with
  | xsynth sfz buf =>
    rw [hp] at hw
    exact ⟨h2.trans hw.1, h3.trans hw.2⟩
  | kdmapi =>
    rw [hp] at hw
    exact ⟨h2.trans hw.1, h3.trans hw.2⟩

/-- Helper: a freshly constructed player has the requested backend tag and
satisfies the population invariant. -/
theorem new_shape (t : AudioPlayerType) :
    (SimpleTemporaryPlayer.new t).player_type = t ∧
    (SimpleTemporaryPlayer.new t).wf := by
  cases t with
  | xsynth sfz buf => exact ⟨rfl, rfl, rfl⟩
  | kdmapi => exact ⟨rfl, rfl, rfl⟩

/-- C7: for every player produced by `new` and every sequence of the
public operations, the backend tag `player_type` never changes after
construction and exactly the backend field matching it stays populated
(XSynth: `xsynth` is Some and `kdmapi` is None; Kdmapi: the converse). -/
theorem C7_backend_invariant (t : AudioPlayerType) (ops : List PlayerOp) :
    (runOps ops (SimpleTemporaryPlayer.new t)).player_type = t ∧
    (runOps ops (SimpleTemporaryPlayer.new t)).wf := by
  obtain ⟨hshape1, hshape2, hshape3⟩ :=
    runOps_shape ops (SimpleTemporaryPlayer.new t)
  obtain ⟨hnew1, hnew2⟩ := new_shape t
  exact ⟨hshape1.trans hnew1,
    wf_of_shape (SimpleTemporaryPlayer.new t) _ hshape1 hshape2 hshape3 hnew2⟩

/-- Helper: a `(start, end]` buffered query returns nothing when every
event in the list lies strictly after `end`. -/
theorem bufferedQuery_eq_nil (evs : List TimedEvent) (s e : Nat)
    (h : ∀ ev ∈ evs, e < ev.time) : bufferedQuery evs s e = [] := by
  induction evs with
  | nil => rfl
  | cons ev rest ih =>
    have h1 : ¬ ev.time ≤ e := by
      have := h ev (by simp)
      omega
    have hcond : (s < ev.time && ev.time ≤ e) = false := by
      simp [h1]
    simp only [bufferedQuery, List.filter_cons] at ih ⊢
    simp only [hcond, Bool.false_eq_true, if_false]
    exact ih (fun b hb => h b (by simp [hb]))

/-- C8: given a time-sorted event list (file order, §4.2), the streamed
Timeline's incremental `(start, end]` query yields exactly the same
ordered event sequence as the buffered Timeline's query. -/
theorem C8_timeline_equivalence (evs : List TimedEvent) (s e : Nat)
    (h : timeSorted evs) :
    streamedQuery evs s e = bufferedQuery evs s e := by
  induction evs with
  | nil => rfl
  | cons ev rest ih =>
    rw [timeSorted, List.pairwise_cons] at h
    obtain ⟨hhead, htail⟩ := h
    by_cases h1 : ev.time ≤ s
    · have hns : ¬ s < ev.time := by omega
      simp [streamedQuery, bufferedQuery, List.filter_cons, hns, h1,
        ih htail]
    · by_cases h2 : ev.time ≤ e
      · have hs : s < ev.time := by omega
        simp [streamedQuery, bufferedQuery, List.filter_cons, hs, h1, h2,
          ih htail]
      · have hrest : ∀ b ∈ rest, e < b.time := by
          intro b hb
          have := hhead b hb
          omega
        have hnil := bufferedQuery_eq_nil rest s e hrest
        simp [streamedQuery, bufferedQuery, List.filter_cons, h1, h2]
        simpa [bufferedQuery] using hnil.symm

/-- C8 witness: the two Timeline variants agree on a concrete sorted file
and a concrete `(1 s, 3 s]` range query. -/
theorem C8_timeline_equivalence_witness :
    timeSorted demoEvents ∧
    streamedQuery demoEvents oneSecNanos (3 * oneSecNanos)
      = bufferedQuery demoEvents oneSecNanos (3 * oneSecNanos) := by
  have h : timeSorted demoEvents := by unfold timeSorted; decide
  exact ⟨h, C8_timeline_equivalence demoEvents oneSecNanos
    (3 * oneSecNanos) h⟩

/-- Helper: one loop pass of `GuiKeyboard::draw` succeeds when `colors`
covers all visible indices, and draws every key whose blackness matches
the pass with the claim's predicted fill color. -/
theorem drawPass_spec (colors : List (Option MIDIColor)) (pass : Bool)
    (kv : List (Nat × Key)) (h : ∀ p ∈ kv, p.1 < colors.length) :
    ∃ m, drawPass colors pass kv = some m ∧
      ∀ p ∈ kv, p.2.black = pass →
        (p.1, expectedFill colors p.1 p.2) ∈ m := by
  induction kv with
  | nil => exact ⟨[], rfl, by simp⟩
  | cons q rest ih =>
    obtain ⟨i, key⟩ := q
    have hi : i < colors.length := h (i, key) (by simp)
    obtain ⟨m, hm, hmem⟩ := ih (fun p hp => h p (by simp [hp]))
    by_cases hb : key.black = pass
    · obtain ⟨oc, hoc⟩ : ∃ oc, colors.get? i = some oc :=
        ⟨colors.get ⟨i, hi⟩, List.get?_eq_get hi⟩
      have hoc2 : colors[i]? = some oc := by
        rw [← List.get?_eq_getElem?]
        exact hoc
      have hgd : colors[i]?.getD none = oc := by
        rw [hoc2]
        rfl
      have hfill : expectedFill colors i key
          = (oc.map map_color).getD
              (if pass then Color32.BLACK else Color32.WHITE) := by
        cases oc with
        | none => simp [expectedFill, List.getD_eq_getElem?_getD, hgd, hb]
        | some c => simp [expectedFill, List.getD_eq_getElem?_getD, hgd]
      refine ⟨(i, (oc.map map_color).getD
          (if pass then Color32.BLACK else Color32.WHITE)) :: m, ?_, ?_⟩
      · simp [drawPass, hb, hoc2, hm]
      · intro p hp hpb
        rcases List.mem_cons.mp hp with hhead | htail
        · subst hhead
          simp [hfill]
        · exact List.mem_cons_of_mem _ (hmem p htail hpb)
    · refine ⟨m, by simp [drawPass, hb, hm], ?_⟩
      intro p hp hpb
      rcases List.mem_cons.mp hp with hhead | htail
      · rw [hhead] at hpb
        exact absurd hpb hb
      · exact hmem p htail hpb

/-- C9: when `colors` covers all visible key indices, `GuiKeyboard::draw`
succeeds and draws every visible key `i` with its predicted fill color —
the silent default (white for a white key, black for a black key) when
`colors[i]` is `None`, and `c`'s RGB components when it is `Some c`. -/
theorem C9_keyboard_draw (kv : List (Nat × Key))
    (colors : List (Option MIDIColor))
    (h : ∀ p ∈ kv, p.1 < colors.length) :
    ∃ mesh, GuiKeyboard.draw kv colors = some mesh ∧
      ∀ p ∈ kv, (p.1, expectedFill colors p.1 p.2) ∈ mesh := by
  obtain ⟨w, hw, hwm⟩ := drawPass_spec colors false kv h
  obtain ⟨b, hb, hbm⟩ := drawPass_spec colors true kv h
  refine ⟨w ++ b, by simp [GuiKeyboard.draw, hw, hb], ?_⟩
  intro p hp
  by_cases hblack : p.2.black = true
  · exact List.mem_append_right _ (hbm p hp hblack)
  · have hfalse : p.2.black = false := by simpa using hblack
    exact List.mem_append_left _ (hwm p hp hfalse)

/-- C9 witness: the keyboard drawn for a concrete two-key view with a
silent white key and a sounding black key. -/
theorem C9_keyboard_draw_witness :
    ∃ mesh, GuiKeyboard.draw demoView demoColors = some mesh ∧
      ∀ p ∈ demoView, (p.1, expectedFill demoColors p.1 p.2) ∈ mesh :=
  C9_keyboard_draw demoView demoColors (by
    intro p hp
    rcases List.mem_cons.mp hp with h | h
    · rw [h]; decide
    · rcases List.mem_cons.mp h with h2 | h2
      · rw [h2]; decide
      · exact absurd h2 (List.not_mem_nil p))

/-- C10: the `range_serde` codec round-trips — deserializing the
serialization of any `RangeInclusive<u8>` yields exactly the original
range (the field `"hi"` carries the range start and `"lo"` the range end
on both sides, consistently). -/
theorem C10_range_serde_roundtrip (r : RangeU8) :
    range_serde.deserialize (range_serde.serialize r) = some r := by
  obtain ⟨a, b⟩ := r
  rfl

end Wasabi
